import Mathlib

/-!
Verification development for the ZMQ publishing core of `ngx_http_brokerlog_zmq.c`
(nginx-log-zmq).  The C source is shallowly embedded: the module context
`ngx_http_brokerlog_ctx_t` and the location configuration
`ngx_http_brokerlog_element_conf_t` become Lean structures, opaque handles
returned by the ZMQ library become `Option Nat` (a `none` handle is C `NULL`),
and the external ZMQ library calls are a parameter (`ZmqEnv`) deciding success
or failure of each call.  Each lifecycle function additionally returns the list
of external calls it performed, so ordering and "at most once" properties can
be stated about the trace.
-/

/-- Modelled from the spec: the header `ngx_http_brokerlog_zmq.h` is not part of
`src/`; the spec states the outbound-queue capacity defaults to the fixed
sentinel value 1000 (`ZMQ_NGINX_QUEUE_LENGTH`). -/
def ZMQ_NGINX_QUEUE_LENGTH : Nat := 1000

/-- Modelled from the spec: the header `ngx_http_brokerlog_zmq.h` is not part of
`src/`; the spec only says linger defaults to "a fixed sentinel duration", so a
fixed value is used here (no claim depends on the particular value). -/
def ZMQ_NGINX_LINGER : Int := 0

/-- nginx return code `NGX_OK`. -/
def NGX_OK : Int := 0

/-- nginx return code `NGX_ERROR`. -/
def NGX_ERROR : Int := -1

/-- Embedding of `ngx_http_brokerlog_ctx_t` (the per-location module context):
a borrowed log pointer, the I/O thread count, the two creation flags
`ccreated`/`screated`, and the two opaque ZMQ handles (`NULL` = `none`). -/
structure BrokerlogCtx where
  log : Option Nat
  iothreads : Int
  ccreated : Nat
  screated : Nat
  zmq_context : Option Nat
  zmq_socket : Option Nat
deriving DecidableEq

/-- Embedding of `ngx_http_brokerlog_element_conf_t` restricted to the fields
the embedded functions read: `iothreads`, `qlen`, the server connection string
(`cf->server->connection`, flattened) and the pointer to the module context
(`cf->ctx`, nullable). -/
structure ElementConf where
  iothreads : Int
  qlen : Nat
  connection : String
  ctx : Option BrokerlogCtx
deriving DecidableEq

/-- The external ZMQ library, as an environment deciding the outcome of each
call.  `zmq_init` returns a fresh context handle or `NULL`; `zmq_socket`
returns a socket handle or `NULL`; the option setters and `zmq_connect`
return an `int` return code (`0` = success).  The setters and `zmq_connect`
receive the (possibly `NULL`) socket pointer exactly as the C passes it. -/
structure ZmqEnv where
  zmq_init : Int → Option Nat
  zmq_socket : Nat → Option Nat
  setsockopt_linger : Option Nat → Int → Int
  setsockopt_hwm : Option Nat → Nat → Int
  zmq_connect : Option Nat → String → Int

/-- External calls performed while creating/initializing a context. -/
inductive CtxEvent where
  | engineInit : Int → CtxEvent
deriving DecidableEq

/-- External calls performed while creating/configuring the socket. -/
inductive SockEvent where
  | createSocket : SockEvent
  | setLinger : Int → SockEvent
  | setHwm : Nat → SockEvent
  | connectTo : String → SockEvent
deriving DecidableEq

/-- External calls performed during teardown. -/
inductive TermEvent where
  | closeSocket : Nat → TermEvent
  | termContext : Nat → TermEvent
deriving DecidableEq

/-- Embedding of `zmq_init_ctx` (lines 35-50): stores the result of
`zmq_init(ctx->iothreads)` into `ctx->zmq_context`; on `NULL` returns `-1`,
otherwise sets `ctx->ccreated = 1` and returns `0`.  The trace records the
`zmq_init` attempt. -/
def zmq_init_ctx (env : ZmqEnv) (ctx : BrokerlogCtx) :
    Int × BrokerlogCtx × List CtxEvent :=
  match env.zmq_init ctx.iothreads with
  | none => (-1, { ctx with zmq_context := none }, [CtxEvent.engineInit ctx.iothreads])
  | some h =>
      (0, { ctx with zmq_context := some h, ccreated := 1 },
        [CtxEvent.engineInit ctx.iothreads])

/-- Embedding of `zmq_create_ctx` (lines 62-90): returns `1` when `cf` or
`cf->ctx` is `NULL`; returns `0` immediately when `cf->ctx->ccreated == 1`;
otherwise copies `cf->iothreads` into the context and calls `zmq_init_ctx`,
propagating its return code. -/
def zmq_create_ctx (env : ZmqEnv) (cf : Option ElementConf) :
    Int × Option ElementConf × List CtxEvent :=
  match cf with
  | none => (1, none, [])
  | some c =>
      match c.ctx with
      | none => (1, some c, [])
      | some ctx =>
          if ctx.ccreated = 1 then (0, some c, [])
          else
            let r := zmq_init_ctx env { ctx with iothreads := c.iothreads }
            (r.1, some { c with ctx := some r.2.1 }, r.2.2)

/-- Embedding of `zmq_term_ctx` (lines 102-122): if the socket handle is
non-`NULL`, `zmq_close` it and nullify it; then, if the context handle is
non-`NULL`, `zmq_term` it and nullify it; finally nullify the log pointer.
The trace records the `zmq_close` and `zmq_term` calls in program order. -/
def zmq_term_ctx (ctx : BrokerlogCtx) : BrokerlogCtx × List TermEvent :=
  let s : BrokerlogCtx × List TermEvent :=
    match ctx.zmq_socket with
    | some sh => ({ ctx with zmq_socket := none }, [TermEvent.closeSocket sh])
    | none => (ctx, [])
  let t : BrokerlogCtx × List TermEvent :=
    match s.1.zmq_context with
    | some ch => ({ s.1 with zmq_context := none }, [TermEvent.termContext ch])
    | none => (s.1, [])
  let u : BrokerlogCtx :=
    if t.1.log.isSome then { t.1 with log := none } else t.1
  (u, s.2 ++ t.2)

/-- The effective queue length of `zmq_create_socket` (lines 138-152):
`qlen` starts as `ZMQ_NGINX_QUEUE_LENGTH` and is overridden by `cf->qlen`
whenever `cf->qlen != qlen`. -/
def qlenEff (cf : ElementConf) : Nat :=
  if cf.qlen ≠ ZMQ_NGINX_QUEUE_LENGTH then cf.qlen else ZMQ_NGINX_QUEUE_LENGTH

/-- Embedding of `zmq_create_socket` (lines 135-203).  The C function receives
`cf` and works on `cf->ctx` through the pointer; here the context record is the
explicit `ctx` argument (the caller's `cf->ctx`).  Behaviour: if
`cf->ctx->zmq_context` is `NULL`, return `-1` (before any socket call); if
`screated == 0`, call `zmq_socket(context, ZMQ_PUB)`, returning `-1` on `NULL`,
else store the handle and set `screated = 1`; then unconditionally set
`ZMQ_LINGER`, set `ZMQ_HWM`, and `zmq_connect`, each returning `-1` on a
non-zero return code; return `0` on success.  The trace records each external
socket call in program order. -/
def zmq_create_socket (env : ZmqEnv) (cf : ElementConf) (ctx : BrokerlogCtx) :
    Int × BrokerlogCtx × List SockEvent :=
  let linger : Int := ZMQ_NGINX_LINGER
  let qlen : Nat := qlenEff cf
  match ctx.zmq_context with
  | none => (-1, ctx, [])
  | some ch =>
      let created : Option BrokerlogCtx :=
        if ctx.screated = 0 then
          (env.zmq_socket ch).map
            (fun sh => { ctx with zmq_socket := some sh, screated := 1 })
        else some ctx
      let cevs : List SockEvent :=
        if ctx.screated = 0 then [SockEvent.createSocket] else []
      match created with
      | none => (-1, ctx, cevs)
      | some ctx1 =>
          if env.setsockopt_linger ctx1.zmq_socket linger ≠ 0 then
            (-1, ctx1, cevs ++ [SockEvent.setLinger linger])
          else if env.setsockopt_hwm ctx1.zmq_socket qlen ≠ 0 then
            (-1, ctx1, cevs ++ [SockEvent.setLinger linger, SockEvent.setHwm qlen])
          else if env.zmq_connect ctx1.zmq_socket cf.connection ≠ 0 then
            (-1, ctx1, cevs ++ [SockEvent.setLinger linger, SockEvent.setHwm qlen,
              SockEvent.connectTo cf.connection])
          else
            (0, ctx1, cevs ++ [SockEvent.setLinger linger, SockEvent.setHwm qlen,
              SockEvent.connectTo cf.connection])

/-- The bytes a C string reads as: everything up to the first null byte. -/
def cstr (l : List Nat) : List Nat := l.takeWhile (fun b => b ≠ 0)

/-- `strlen` on a byte buffer. -/
def strlenB (buf : List Nat) : Nat := (cstr buf).length

/-- Byte-level effect of `strncat(dst, src, n)` on a buffer large enough to
hold the result: the first `min(strlen(src), n)` bytes of `src` are written at
offset `strlen(dst)`, followed by a null terminator; the rest of the buffer is
unchanged. -/
def strncatB (dst src : List Nat) (n : Nat) : List Nat :=
  let dl := strlenB dst
  let s := (cstr src).take n
  dst.take dl ++ s ++ [0] ++ dst.drop (dl + s.length + 1)

/-- Allocation outcomes for the three allocations of
`brokerlog_serialize_zmq`: the `strndup` of the endpoint, the `ngx_pcalloc`
of the scratch message buffer, and the `ngx_pcalloc` of the output buffer. -/
structure AllocEnv where
  strndup_ok : Bool
  msg_ok : Bool
  out_ok : Bool

/-- The in/out `ngx_str_t *output` argument of `brokerlog_serialize_zmq`:
a length and a (nullable) data pointer, the pointed-to bytes inlined. -/
structure OutStr where
  len : Nat
  data : Option (List Nat)
deriving DecidableEq

/-- Embedding of `brokerlog_serialize_zmq` (lines 217-273).
`msg_len = endpoint->len + data->len + 1`; `strndup` the endpoint (C-string
semantics: copying stops at a null byte) — `NULL` means `NGX_ERROR` with
`output` untouched; `ngx_pcalloc` a zeroed `msg_len` scratch buffer — `NULL`
means `NGX_ERROR` with `output` untouched; `strncat` the endpoint then the
data into it (the `NULL == msg` checks in the C are dead: `strncat` returns
its destination); set `output->len = msg_len - 1`, allocate `output->data`
and copy — on allocation failure `output->data` is `NULL` and the function
returns `NGX_ERROR`, otherwise `NGX_OK`. -/
def brokerlog_serialize_zmq (env : AllocEnv) (endpoint dat : List Nat)
    (output : OutStr) : Int × OutStr :=
  let msg_len := endpoint.length + dat.length + 1
  if env.strndup_ok = false then (NGX_ERROR, output)
  else
    let endp := cstr endpoint
    if env.msg_ok = false then (NGX_ERROR, output)
    else
      let msg0 := List.replicate msg_len 0
      let msg1 := strncatB msg0 endp endpoint.length
      let msg2 := strncatB msg1 dat dat.length
      let out_len := msg_len - 1
      if env.out_ok = false then (NGX_ERROR, { len := out_len, data := none })
      else (NGX_OK, { len := out_len, data := some (msg2.take out_len) })

/-! Concrete fixtures used by witnesses. -/

/-- A ZMQ environment in which every call succeeds. -/
def envOK : ZmqEnv where
  zmq_init := fun _ => some 1
  zmq_socket := fun _ => some 2
  setsockopt_linger := fun _ _ => 0
  setsockopt_hwm := fun _ _ => 0
  zmq_connect := fun _ _ => 0

/-- A ZMQ environment in which `zmq_init` fails. -/
def envInitFail : ZmqEnv where
  zmq_init := fun _ => none
  zmq_socket := fun _ => some 2
  setsockopt_linger := fun _ _ => 0
  setsockopt_hwm := fun _ _ => 0
  zmq_connect := fun _ _ => 0

/-- All three allocations succeed. -/
def allocOK : AllocEnv := ⟨true, true, true⟩

/-- The output-buffer allocation fails. -/
def allocOutFail : AllocEnv := ⟨true, true, false⟩

/-- A fresh context: nothing created yet. -/
def ctx0 : BrokerlogCtx := ⟨some 9, 1, 0, 0, none, none⟩

/-- A fully ready context: engine and socket created. -/
def ctxReady : BrokerlogCtx := ⟨some 9, 1, 1, 1, some 1, some 2⟩

/-- A sample location configuration. -/
def cf0 : ElementConf := ⟨1, 1000, "tcp://localhost:5555", some ctx0⟩

/-- A sample configuration whose context is `ctxReady`. -/
def cfReady : ElementConf := ⟨1, 1000, "tcp://localhost:5555", some ctxReady⟩

/-- The bytes of the routing key of the spec's concrete scenario. -/
def stratusKey : List Nat := [47, 115, 116, 114, 97, 116, 117, 115, 47]

/-- The bytes of the payload of the spec's concrete scenario. -/
def numPayload : List Nat := [123, 39, 110, 117, 109, 39, 58, 49, 125]

/-- A byte list with no null byte reads back whole as a C string. -/
lemma cstr_eq_self {l : List Nat} (h : 0 ∉ l) : cstr l = l := by
  induction l with
  | nil => rfl
  | cons a t ih =>
      simp only [List.mem_cons, not_or] at h
      simp [cstr, List.takeWhile_cons, Ne.symm h.1] at *
      exact ih h.2

/-- A C string stops at the first null byte after the clean bytes. -/
lemma cstr_append_zero {e r : List Nat} (h : 0 ∉ e) :
    cstr (e ++ 0 :: r) = e := by
  induction e with
  | nil => simp [cstr]
  | cons a t ih =>
      simp only [List.mem_cons, not_or] at h
      simp [cstr, List.takeWhile_cons, Ne.symm h.1] at *
      exact ih h.2

/-- Effect of the first `strncat` of `brokerlog_serialize_zmq`: the endpoint
bytes land at the start of the zeroed scratch buffer. -/
lemma strncat_endpoint_step {e : List Nat} (he : 0 ∉ e) (d : Nat) :
    strncatB (List.replicate (e.length + d + 1) 0) (cstr e) e.length
      = e ++ 0 :: List.replicate d 0 := by
  have hc : cstr e = e := cstr_eq_self he
  have h0 : strlenB (List.replicate (e.length + d + 1) 0) = 0 := by
    cases e <;> simp [strlenB, cstr, List.replicate, List.takeWhile_cons]
  simp only [strncatB, h0, hc, List.take_length, List.take_zero, List.drop_replicate,
    Nat.zero_add, List.nil_append]
  have : e.length + d + 1 - (e.length + 1) = d := by omega
  rw [this]
  simp

/-- Effect of the second `strncat`: the payload bytes land right after the
endpoint bytes, followed by the terminator. -/
lemma strncat_payload_step {e d : List Nat} (he : 0 ∉ e) (hd : 0 ∉ d) :
    strncatB (e ++ 0 :: List.replicate d.length 0) d d.length
      = e ++ d ++ [0] := by
  have hl : strlenB (e ++ 0 :: List.replicate d.length 0) = e.length := by
    simp [strlenB, cstr_append_zero he]
  have hc : cstr d = d := cstr_eq_self hd
  simp only [strncatB, hl, hc, List.take_length]
  rw [List.take_left]
  have hdrop : (e ++ 0 :: List.replicate d.length 0).drop (e.length + d.length + 1) = [] := by
    apply List.drop_eq_nil_of_le
    simp
    omega
  rw [hdrop]
  simp

/-- Claim C1 (amended): for every routing key and payload byte sequence that
contain no null byte, and all three allocations succeeding,
`brokerlog_serialize_zmq` returns `NGX_OK` and an output of length exactly
`len(routingKey) + len(payload)` whose bytes are exactly the routing-key bytes
immediately followed by the payload bytes (no terminator byte included). -/
theorem serialize_concat_no_null (env : AllocEnv) (e d : List Nat) (out : OutStr)
    (h1 : env.strndup_ok = true) (h2 : env.msg_ok = true) (h3 : env.out_ok = true)
    (he : 0 ∉ e) (hd : 0 ∉ d) :
    brokerlog_serialize_zmq env e d out =
      (NGX_OK, ⟨e.length + d.length, some (e ++ d)⟩) := by
  simp only [brokerlog_serialize_zmq, h1, h2, h3, Bool.true_eq_false, if_false]
  rw [strncat_endpoint_step he d.length, strncat_payload_step he hd]
  have ht : (e ++ d ++ [0]).take (e.length + d.length) = e ++ d :=
    List.take_left' (by simp)
  have hlen : e.length + d.length + 1 - 1 = e.length + d.length := by omega
  rw [hlen, ht]

/-- Witness for C1 at the concrete scenario of the spec: routing key
`/stratus/` (9 bytes, no null) and payload with the bytes of the text
between braces `num:1` quoted (9 bytes, no null) give the 18-byte
concatenation. -/
theorem serialize_concat_no_null_witness :
    (0 : Nat) ∉ stratusKey ∧ (0 : Nat) ∉ numPayload ∧
      brokerlog_serialize_zmq allocOK stratusKey numPayload ⟨0, none⟩ =
        (NGX_OK, ⟨18, some (stratusKey ++ numPayload)⟩) :=
  ⟨by decide, by decide,
    serialize_concat_no_null allocOK stratusKey numPayload ⟨0, none⟩ rfl rfl rfl
      (by decide) (by decide)⟩

/-- Claim C1, counterexample to the unamended claim: with routing key `[47]`
and payload `[65, 0, 66]` (an embedded null byte), `brokerlog_serialize_zmq`
returns `NGX_OK` but its output bytes differ from the concatenation of the two
inputs: `strncat` stops copying at the null byte. -/
theorem serialize_null_byte_cex :
    (brokerlog_serialize_zmq allocOK [47] [65, 0, 66] ⟨0, none⟩).1 = NGX_OK ∧
      ¬ ((brokerlog_serialize_zmq allocOK [47] [65, 0, 66] ⟨0, none⟩).2.data
        = some ([47] ++ [65, 0, 66])) := by
  constructor
  · decide
  · decide

/-- Claim C7: if any of the three allocations of `brokerlog_serialize_zmq`
fails, the function returns `NGX_ERROR` and the output descriptor never points
at a partly built frame: it is either untouched or its data pointer is null. -/
theorem serialize_error_clean (env : AllocEnv) (e d : List Nat) (out : OutStr)
    (h : env.strndup_ok = false ∨ env.msg_ok = false ∨ env.out_ok = false) :
    (brokerlog_serialize_zmq env e d out).1 = NGX_ERROR ∧
      ((brokerlog_serialize_zmq env e d out).2 = out ∨
        (brokerlog_serialize_zmq env e d out).2.data = none) := by
  unfold brokerlog_serialize_zmq
  rcases h with h | h | h
  · simp [h]
  · cases hs : env.strndup_ok <;> simp [h, hs]
  · cases hs : env.strndup_ok <;> cases hm : env.msg_ok <;> simp [h, hs, hm]

/-- Witness for C7: the output-buffer allocation failing. -/
theorem serialize_error_clean_witness :
    (allocOutFail.strndup_ok = false ∨ allocOutFail.msg_ok = false ∨
        allocOutFail.out_ok = false) ∧
      ((brokerlog_serialize_zmq allocOutFail [1] [2] ⟨0, none⟩).1 = NGX_ERROR ∧
        ((brokerlog_serialize_zmq allocOutFail [1] [2] ⟨0, none⟩).2 = ⟨0, none⟩ ∨
          (brokerlog_serialize_zmq allocOutFail [1] [2] ⟨0, none⟩).2.data = none)) :=
  ⟨by decide, serialize_error_clean allocOutFail [1] [2] ⟨0, none⟩ (by decide)⟩

/-- Claim C2: `zmq_create_ctx` is idempotent: for every scope state whose
context-creation flag `ccreated` is already `1`, it returns success `0`
immediately, leaving the configuration untouched and performing no engine
initialization call. -/
theorem create_ctx_idempotent (env : ZmqEnv) (cf : ElementConf) (ctx : BrokerlogCtx)
    (h1 : cf.ctx = some ctx) (h2 : ctx.ccreated = 1) :
    zmq_create_ctx env (some cf) = (0, some cf, []) := by
  simp [zmq_create_ctx, h1, h2]

/-- Witness for C2 at a ready scope. -/
theorem create_ctx_idempotent_witness :
    cfReady.ctx = some ctxReady ∧ ctxReady.ccreated = 1 ∧
      zmq_create_ctx envOK (some cfReady) = (0, some cfReady, []) :=
  ⟨rfl, rfl, create_ctx_idempotent envOK cfReady ctxReady rfl rfl⟩

/-- The state after `zmq_term_ctx`: socket, context and log nullified, the
other fields untouched. -/
lemma zmq_term_ctx_fst (ctx : BrokerlogCtx) :
    (zmq_term_ctx ctx).1 =
      { ctx with zmq_socket := none, zmq_context := none, log := none } := by
  obtain ⟨lg, io, cc, sc, zc, zs⟩ := ctx
  cases zs <;> cases zc <;> cases lg <;> simp [zmq_term_ctx]

/-- The trace of `zmq_term_ctx`: a `zmq_close` for the socket when present,
then a `zmq_term` for the context when present. -/
lemma zmq_term_ctx_snd (ctx : BrokerlogCtx) :
    (zmq_term_ctx ctx).2 =
      ctx.zmq_socket.toList.map TermEvent.closeSocket ++
        ctx.zmq_context.toList.map TermEvent.termContext := by
  obtain ⟨lg, io, cc, sc, zc, zs⟩ := ctx
  cases zs <;> cases zc <;> cases lg <;> simp [zmq_term_ctx]

/-- Claim C10: `zmq_term_ctx` modifies only the socket handle, the context
handle and the log reference, setting each to null; the creation flags
`ccreated` and `screated` and the I/O thread count are left unchanged, from
every starting state. -/
theorem term_ctx_frame (ctx : BrokerlogCtx) :
    (zmq_term_ctx ctx).1.ccreated = ctx.ccreated ∧
      (zmq_term_ctx ctx).1.screated = ctx.screated ∧
      (zmq_term_ctx ctx).1.iothreads = ctx.iothreads ∧
      (zmq_term_ctx ctx).1.zmq_socket = none ∧
      (zmq_term_ctx ctx).1.zmq_context = none ∧
      (zmq_term_ctx ctx).1.log = none := by
  rw [zmq_term_ctx_fst]
  exact ⟨rfl, rfl, rfl, rfl, rfl, rfl⟩

/-- Claim C8: when the transport context does not exist
(`ctx->zmq_context == NULL`), `zmq_create_socket` returns `-1` without
attempting any socket call (empty trace) and without touching the state. -/
theorem create_socket_requires_ctx (env : ZmqEnv) (cf : ElementConf)
    (ctx : BrokerlogCtx) (h : ctx.zmq_context = none) :
    zmq_create_socket env cf ctx = (-1, ctx, []) := by
  simp [zmq_create_socket, h]

/-- Witness for C8 at a fresh scope. -/
theorem create_socket_requires_ctx_witness :
    ctx0.zmq_context = none ∧ zmq_create_socket envOK cf0 ctx0 = (-1, ctx0, []) :=
  ⟨rfl, create_socket_requires_ctx envOK cf0 ctx0 rfl⟩

/-- Claim C4: `zmq_term_ctx` closes the socket strictly before terminating the
context (all close events precede all term events in the trace), skipping each
step when the handle is absent, and clears the log reference; on a scope that
never became ready it performs no socket or context call and only clears the
log; running it a second time in a row performs only no-ops and leaves the
state identical. -/
theorem term_ctx_order_idem (ctx : BrokerlogCtx) :
    ((zmq_term_ctx ctx).2 =
        ctx.zmq_socket.toList.map TermEvent.closeSocket ++
          ctx.zmq_context.toList.map TermEvent.termContext) ∧
      (zmq_term_ctx ctx).1.log = none ∧
      (ctx.zmq_socket = none → ctx.zmq_context = none →
        (zmq_term_ctx ctx).2 = [] ∧ (zmq_term_ctx ctx).1 = { ctx with log := none }) ∧
      zmq_term_ctx (zmq_term_ctx ctx).1 = ((zmq_term_ctx ctx).1, []) := by
  refine ⟨zmq_term_ctx_snd ctx, ?_, ?_, ?_⟩
  · rw [zmq_term_ctx_fst]
  · intro hs hc
    constructor
    · rw [zmq_term_ctx_snd, hs, hc]
      rfl
    · rw [zmq_term_ctx_fst, hs, hc]
  · rw [zmq_term_ctx_fst]
    simp [zmq_term_ctx]

/-- Witness for C4 at a never-ready scope. -/
theorem term_ctx_order_idem_witness :
    ctx0.zmq_socket = none ∧ ctx0.zmq_context = none ∧
      (zmq_term_ctx ctx0).2 = [] ∧ (zmq_term_ctx ctx0).1 = { ctx0 with log := none } :=
  ⟨rfl, rfl, (term_ctx_order_idem ctx0).2.2.1 rfl rfl⟩

/-- Claim C5: after `zmq_term_ctx` on a scope whose context had been created
(`ccreated = 1`), a later `zmq_create_ctx` returns success without creating a
new engine instance (empty trace, context handle stays null) and a later
`zmq_create_socket` fails without obtaining a socket: teardown is absorbing
within the scope instance. -/
theorem term_absorbing (env env2 : ZmqEnv) (cf cf2 : ElementConf) (ctx : BrokerlogCtx)
    (h : ctx.ccreated = 1) :
    zmq_create_ctx env (some { cf with ctx := some (zmq_term_ctx ctx).1 }) =
        (0, some { cf with ctx := some (zmq_term_ctx ctx).1 }, []) ∧
      (zmq_term_ctx ctx).1.zmq_context = none ∧
      zmq_create_socket env2 cf2 (zmq_term_ctx ctx).1 = (-1, (zmq_term_ctx ctx).1, []) ∧
      (zmq_term_ctx ctx).1.zmq_socket = none := by
  rw [zmq_term_ctx_fst]
  refine ⟨?_, rfl, ?_, rfl⟩
  · simp [zmq_create_ctx, h]
  · simp [zmq_create_socket]

/-- Witness for C5 at a ready scope. -/
theorem term_absorbing_witness :
    ctxReady.ccreated = 1 ∧
      zmq_create_ctx envOK (some { cf0 with ctx := some (zmq_term_ctx ctxReady).1 }) =
        (0, some { cf0 with ctx := some (zmq_term_ctx ctxReady).1 }, []) ∧
      zmq_create_socket envOK cf0 (zmq_term_ctx ctxReady).1 =
        (-1, (zmq_term_ctx ctxReady).1, []) :=
  ⟨rfl, (term_absorbing envOK envOK cf0 cf0 ctxReady rfl).1,
    (term_absorbing envOK envOK cf0 cf0 ctxReady rfl).2.2.1⟩

/-- Claim C6: when engine initialization fails in `zmq_init_ctx`, the function
returns `-1` and the creation flag stays `0`, so a later `zmq_create_ctx` on
the same scope re-attempts initialization (its trace holds an engine-init
call); and the flag ends up `1` only when it already was or the engine call
succeeded. -/
theorem init_ctx_failure_retry (env env2 : ZmqEnv) (ctx : BrokerlogCtx)
    (h1 : ctx.ccreated = 0) (h2 : env.zmq_init ctx.iothreads = none) :
    (zmq_init_ctx env ctx).1 = -1 ∧
      (zmq_init_ctx env ctx).2.1.ccreated = 0 ∧
      (∀ c : ElementConf,
        (zmq_create_ctx env2
          (some { c with ctx := some (zmq_init_ctx env ctx).2.1 })).2.2 =
          [CtxEvent.engineInit c.iothreads]) ∧
      (∀ (env3 : ZmqEnv) (ctx3 : BrokerlogCtx),
        (zmq_init_ctx env3 ctx3).2.1.ccreated = 1 →
          ctx3.ccreated = 1 ∨ (env3.zmq_init ctx3.iothreads).isSome = true) := by
  refine ⟨?_, ?_, ?_, ?_⟩
  · simp [zmq_init_ctx, h2]
  · simp [zmq_init_ctx, h2, h1]
  · intro c
    simp only [zmq_init_ctx, h2]
    simp only [zmq_create_ctx, h1]
    cases h3 : env2.zmq_init c.iothreads <;> simp [zmq_init_ctx, h3, h1]
  · intro env3 ctx3 h
    cases h3 : env3.zmq_init ctx3.iothreads with
    | none =>
        simp only [zmq_init_ctx, h3] at h
        exact Or.inl h
    | some v => exact Or.inr (by simp [h3])

/-- Witness for C6 with an environment whose `zmq_init` fails. -/
theorem init_ctx_failure_retry_witness :
    ctx0.ccreated = 0 ∧ envInitFail.zmq_init ctx0.iothreads = none ∧
      (zmq_init_ctx envInitFail ctx0).1 = -1 ∧
      (zmq_init_ctx envInitFail ctx0).2.1.ccreated = 0 ∧
      (zmq_create_ctx envOK
        (some { cf0 with ctx := some (zmq_init_ctx envInitFail ctx0).2.1 })).2.2 =
        [CtxEvent.engineInit cf0.iothreads] :=
  ⟨rfl, rfl, (init_ctx_failure_retry envInitFail envOK ctx0 rfl rfl).1,
    (init_ctx_failure_retry envInitFail envOK ctx0 rfl rfl).2.1,
    (init_ctx_failure_retry envInitFail envOK ctx0 rfl rfl).2.2.1 cf0⟩

/-- Claim C3: in `zmq_create_socket` the trace is, in order, an optional
socket-creation call (present exactly when the creation flag `screated` is 0;
when the flag is set no creation happens and the state is untouched), then the
linger option, the queue-capacity option and the connect call, each performed
exactly when every earlier step succeeded, the return code being `0` on full
success and `-1` otherwise. -/
theorem create_socket_step_order (env : ZmqEnv) (cf : ElementConf) (ctx : BrokerlogCtx)
    (ch : Nat) (h : ctx.zmq_context = some ch) :
    (∃ k, (zmq_create_socket env cf ctx).2.2 =
        (if ctx.screated = 0 then [SockEvent.createSocket] else []) ++
          ([SockEvent.setLinger ZMQ_NGINX_LINGER, SockEvent.setHwm (qlenEff cf),
            SockEvent.connectTo cf.connection].take k)) ∧
      (ctx.screated = 1 →
        SockEvent.createSocket ∉ (zmq_create_socket env cf ctx).2.2 ∧
          (zmq_create_socket env cf ctx).2.1 = ctx) ∧
      (SockEvent.setLinger ZMQ_NGINX_LINGER ∈ (zmq_create_socket env cf ctx).2.2 ↔
        (ctx.screated ≠ 0 ∨ (env.zmq_socket ch).isSome = true)) ∧
      (SockEvent.setHwm (qlenEff cf) ∈ (zmq_create_socket env cf ctx).2.2 ↔
        (SockEvent.setLinger ZMQ_NGINX_LINGER ∈ (zmq_create_socket env cf ctx).2.2 ∧
          env.setsockopt_linger (zmq_create_socket env cf ctx).2.1.zmq_socket
            ZMQ_NGINX_LINGER = 0)) ∧
      (SockEvent.connectTo cf.connection ∈ (zmq_create_socket env cf ctx).2.2 ↔
        (SockEvent.setHwm (qlenEff cf) ∈ (zmq_create_socket env cf ctx).2.2 ∧
          env.setsockopt_hwm (zmq_create_socket env cf ctx).2.1.zmq_socket
            (qlenEff cf) = 0)) ∧
      ((zmq_create_socket env cf ctx).1 = 0 ∨ (zmq_create_socket env cf ctx).1 = -1) ∧
      ((zmq_create_socket env cf ctx).1 = 0 ↔
        (SockEvent.connectTo cf.connection ∈ (zmq_create_socket env cf ctx).2.2 ∧
          env.zmq_connect (zmq_create_socket env cf ctx).2.1.zmq_socket
            cf.connection = 0)) := by
  by_cases hs : ctx.screated = 0
  · cases hz : env.zmq_socket ch with
    | none =>
        have hR : zmq_create_socket env cf ctx = (-1, ctx, [SockEvent.createSocket]) := by
          simp [zmq_create_socket, h, hs, hz]
        rw [hR]
        refine ⟨⟨0, by simp [hs]⟩, ?_, ?_, ?_, ?_, ?_, ?_⟩ <;> simp [hs, hz]
    | some sh =>
        by_cases hl : env.setsockopt_linger (some sh) ZMQ_NGINX_LINGER = 0
        · by_cases hw : env.setsockopt_hwm (some sh) (qlenEff cf) = 0
          · by_cases hc : env.zmq_connect (some sh) cf.connection = 0
            · have hR : zmq_create_socket env cf ctx =
                  (0, { ctx with zmq_socket := some sh, screated := 1 },
                    [SockEvent.createSocket, SockEvent.setLinger ZMQ_NGINX_LINGER,
                      SockEvent.setHwm (qlenEff cf), SockEvent.connectTo cf.connection]) := by
                simp [zmq_create_socket, h, hs, hz, hl, hw, hc]
              rw [hR]
              refine ⟨⟨3, by simp [hs]⟩, ?_, ?_, ?_, ?_, ?_, ?_⟩ <;> simp [hs, hz, hl, hw, hc]
            · have hR : zmq_create_socket env cf ctx =
                  (-1, { ctx with zmq_socket := some sh, screated := 1 },
                    [SockEvent.createSocket, SockEvent.setLinger ZMQ_NGINX_LINGER,
                      SockEvent.setHwm (qlenEff cf), SockEvent.connectTo cf.connection]) := by
                simp [zmq_create_socket, h, hs, hz, hl, hw, hc]
              rw [hR]
              refine ⟨⟨3, by simp [hs]⟩, ?_, ?_, ?_, ?_, ?_, ?_⟩ <;> simp [hs, hz, hl, hw, hc]
          · have hR : zmq_create_socket env cf ctx =
                (-1, { ctx with zmq_socket := some sh, screated := 1 },
                  [SockEvent.createSocket, SockEvent.setLinger ZMQ_NGINX_LINGER,
                    SockEvent.setHwm (qlenEff cf)]) := by
              simp [zmq_create_socket, h, hs, hz, hl, hw]
            rw [hR]
            refine ⟨⟨2, by simp [hs]⟩, ?_, ?_, ?_, ?_, ?_, ?_⟩ <;> simp [hs, hz, hl, hw]
        · have hR : zmq_create_socket env cf ctx =
              (-1, { ctx with zmq_socket := some sh, screated := 1 },
                [SockEvent.createSocket, SockEvent.setLinger ZMQ_NGINX_LINGER]) := by
            simp [zmq_create_socket, h, hs, hz, hl]
          rw [hR]
          refine ⟨⟨1, by simp [hs]⟩, ?_, ?_, ?_, ?_, ?_, ?_⟩ <;> simp [hs, hz, hl]
  · by_cases hl : env.setsockopt_linger ctx.zmq_socket ZMQ_NGINX_LINGER = 0
    · by_cases hw : env.setsockopt_hwm ctx.zmq_socket (qlenEff cf) = 0
      · by_cases hc : env.zmq_connect ctx.zmq_socket cf.connection = 0
        · have hR : zmq_create_socket env cf ctx =
              (0, ctx, [SockEvent.setLinger ZMQ_NGINX_LINGER,
                SockEvent.setHwm (qlenEff cf), SockEvent.connectTo cf.connection]) := by
            simp [zmq_create_socket, h, hs, hl, hw, hc]
          rw [hR]
          refine ⟨⟨3, by simp [hs]⟩, ?_, ?_, ?_, ?_, ?_, ?_⟩ <;> simp [hs, hl, hw, hc]
        · have hR : zmq_create_socket env cf ctx =
              (-1, ctx, [SockEvent.setLinger ZMQ_NGINX_LINGER,
                SockEvent.setHwm (qlenEff cf), SockEvent.connectTo cf.connection]) := by
            simp [zmq_create_socket, h, hs, hl, hw, hc]
          rw [hR]
          refine ⟨⟨3, by simp [hs]⟩, ?_, ?_, ?_, ?_, ?_, ?_⟩ <;> simp [hs, hl, hw, hc]
      · have hR : zmq_create_socket env cf ctx =
            (-1, ctx, [SockEvent.setLinger ZMQ_NGINX_LINGER,
              SockEvent.setHwm (qlenEff cf)]) := by
          simp [zmq_create_socket, h, hs, hl, hw]
        rw [hR]
        refine ⟨⟨2, by simp [hs]⟩, ?_, ?_, ?_, ?_, ?_, ?_⟩ <;> simp [hs, hl, hw]
    · have hR : zmq_create_socket env cf ctx =
          (-1, ctx, [SockEvent.setLinger ZMQ_NGINX_LINGER]) := by
        simp [zmq_create_socket, h, hs, hl]
      rw [hR]
      refine ⟨⟨1, by simp [hs]⟩, ?_, ?_, ?_, ?_, ?_, ?_⟩ <;> simp [hs, hl]

/-- Witness for C3 at a ready scope. -/
theorem create_socket_step_order_witness :
    ctxReady.zmq_context = some 1 ∧
      ((zmq_create_socket envOK cf0 ctxReady).1 = 0 ∨
        (zmq_create_socket envOK cf0 ctxReady).1 = -1) :=
  ⟨rfl, (create_socket_step_order envOK cf0 ctxReady 1 rfl).2.2.2.2.2.1⟩

/-- Claim C9: once past socket creation, the queue capacity applied by
`zmq_create_socket` is the default `ZMQ_NGINX_QUEUE_LENGTH` when the
configured value equals that default literal and the configured value
otherwise, and the default linger value is applied before the connect call. -/
theorem create_socket_defaults (env : ZmqEnv) (cf : ElementConf) (ctx : BrokerlogCtx)
    (ch : Nat) (h1 : ctx.zmq_context = some ch) (h2 : ctx.screated = 1)
    (h3 : env.setsockopt_linger ctx.zmq_socket ZMQ_NGINX_LINGER = 0)
    (h4 : env.setsockopt_hwm ctx.zmq_socket (qlenEff cf) = 0) :
    (zmq_create_socket env cf ctx).2.2 =
      [SockEvent.setLinger ZMQ_NGINX_LINGER,
        SockEvent.setHwm
          (if cf.qlen = ZMQ_NGINX_QUEUE_LENGTH then ZMQ_NGINX_QUEUE_LENGTH else cf.qlen),
        SockEvent.connectTo cf.connection] := by
  have hq : qlenEff cf =
      if cf.qlen = ZMQ_NGINX_QUEUE_LENGTH then ZMQ_NGINX_QUEUE_LENGTH else cf.qlen := by
    by_cases hc : cf.qlen = ZMQ_NGINX_QUEUE_LENGTH <;> simp [qlenEff, hc]
  have hs : ¬ ctx.screated = 0 := by omega
  rw [← hq]
  by_cases hc : env.zmq_connect ctx.zmq_socket cf.connection = 0 <;>
    simp [zmq_create_socket, h1, hs, h3, h4, hc]

/-- Witness for C9 with the queue-capacity override unset. -/
theorem create_socket_defaults_witness :
    ctxReady.zmq_context = some 1 ∧ ctxReady.screated = 1 ∧
      cf0.qlen = ZMQ_NGINX_QUEUE_LENGTH ∧
      (zmq_create_socket envOK cf0 ctxReady).2.2 =
        [SockEvent.setLinger ZMQ_NGINX_LINGER, SockEvent.setHwm ZMQ_NGINX_QUEUE_LENGTH,
          SockEvent.connectTo cf0.connection] :=
  ⟨rfl, rfl, rfl, by simpa using create_socket_defaults envOK cf0 ctxReady 1 rfl rfl rfl rfl⟩
